import Mathlib

set_option maxRecDepth 100000

/-!
Verification development for `make_carrington.py`, a batch utility that, for
every hour in a fixed date range, loads a magnetogram tensor from a
timestamp-derived path, extracts column 512, and saves it to a
timestamp-derived output path.

The embedding models:
* Python `datetime`/`timedelta` arithmetic as proleptic-Gregorian second
  counts (`toSecs`/`fromSecs`, using the standard era-based civil-calendar
  conversion, valid for the positive years used here);
* `strftime` rendering with zero-padded fields as string concatenation;
* `os.path.join` (POSIX) including its discard-on-absolute behaviour;
* the filesystem as a map from path strings to artifacts, plus a record of
  `makedirs` calls;
* `torch.load`/`torch.save` as lookup/update of tensor artifacts, with a
  `corrupt` artifact standing for any file whose load raises a non-not-found
  exception;
* `sel_mid_line` as a total function returning the new filesystem, the
  Python return value (`Optional[str]`), and the printed log line — the
  `try/except` blocks of the source make the Python function total in
  exactly this sense;
* the thread-pool loop of `main` as a fold over the timestamp list
  (scheduling order abstracted; each task only touches its own paths).
-/

namespace SDO

/-- A Python `datetime` value at second granularity (the script never uses
microseconds): the six calendar fields. -/
structure DateTime where
  year : Nat
  month : Nat
  day : Nat
  hour : Nat
  minute : Nat
  second : Nat
deriving DecidableEq, Repr

/-- Day count of a civil date, day 0 = 0000-03-01, proleptic Gregorian
(standard era-based conversion; the script's years are all ≥ 2010, so the
`Nat` specialisation is exact). This models the ordinal arithmetic inside
Python's `datetime`. -/
def daysFromCivil (y m d : Nat) : Nat :=
  let y2 := if m ≤ 2 then y - 1 else y
  let era := y2 / 400
  let yoe := y2 % 400
  let mp := if 2 < m then m - 3 else m + 9
  let doy := (153 * mp + 2) / 5 + d - 1
  let doe := yoe * 365 + yoe / 4 - yoe / 100 + doy
  era * 146097 + doe

/-- Inverse of `daysFromCivil`: the civil date (year, month, day) of a day
count (day 0 = 0000-03-01), via the era / century / quadrennium
decomposition of the Gregorian cycle. -/
def civilFromDays (z : Nat) : Nat × Nat × Nat :=
  let era := z / 146097
  let doe := z % 146097
  let cent := (4 * doe + 3) / 146097
  let doc := doe - 146097 * cent / 4
  let yoc := (4 * doc + 3) / 1461
  let doy := doc - 1461 * yoc / 4
  let yoe := 100 * cent + yoc
  let y := yoe + era * 400
  let mp := (5 * doy + 2) / 153
  let d := doy - (153 * mp + 2) / 5 + 1
  let m := if mp < 10 then mp + 3 else mp - 9
  (if m ≤ 2 then y + 1 else y, m, d)

/-- Seconds since 0000-03-01T00:00:00 of a datetime; models the linear
timeline on which Python's `datetime ± timedelta` arithmetic acts. -/
def toSecs (dt : DateTime) : Nat :=
  daysFromCivil dt.year dt.month dt.day * 86400
    + dt.hour * 3600 + dt.minute * 60 + dt.second

/-- The datetime of a second count: civil date of the day part, divmod chain
for the time of day. -/
def fromSecs (s : Nat) : DateTime :=
  let c := civilFromDays (s / 86400)
  let t := s % 86400
  ⟨c.1, c.2.1, c.2.2, t / 3600, t % 3600 / 60, t % 3600 % 60⟩

theorem cent_select (doe : Nat) (h : doe < 146097) :
    (4 * doe + 3) / 146097 ≤ 3 ∧
    146097 * ((4 * doe + 3) / 146097) / 4 ≤ doe ∧
    doe - 146097 * ((4 * doe + 3) / 146097) / 4 ≤ 36524 := by
  omega

theorem yoc_select (doc : Nat) (h : doc ≤ 36524) :
    (4 * doc + 3) / 1461 ≤ 99 ∧
    1461 * ((4 * doc + 3) / 1461) / 4 ≤ doc ∧
    doc - 1461 * ((4 * doc + 3) / 1461) / 4 ≤ 365 := by
  omega

theorem month_select (doy : Nat) (h : doy ≤ 365) :
    (5 * doy + 2) / 153 ≤ 11 ∧
    (153 * ((5 * doy + 2) / 153) + 2) / 5 ≤ doy ∧
    doy - (153 * ((5 * doy + 2) / 153) + 2) / 5 ≤ 30 := by
  omega

theorem rt_core_march (era doe cent doc yoc doy mp : Nat)
    (h1 : doe < 146097)
    (h2 : cent = (4 * doe + 3) / 146097)
    (h3 : doc = doe - 146097 * cent / 4)
    (h4 : yoc = (4 * doc + 3) / 1461)
    (h5 : doy = doc - 1461 * yoc / 4)
    (h6 : mp = (5 * doy + 2) / 153)
    (h8 : mp < 10) :
    daysFromCivil (100 * cent + yoc + era * 400) (mp + 3)
      (doy - (153 * mp + 2) / 5 + 1) = era * 146097 + doe := by
  have hcb : cent ≤ 3 := by omega
  have hdocb : doc ≤ 36524 := by omega
  have hyocb : yoc ≤ 99 := by omega
  have hdoyb : doy ≤ 365 := by omega
  have hf : (153 * mp + 2) / 5 ≤ doy := by omega
  have hL : 146097 * cent / 4 = 36524 * cent := by omega
  have hK : 1461 * yoc / 4 = 365 * yoc + yoc / 4 := by omega
  rw [hL] at h3
  rw [hK] at h5
  simp only [daysFromCivil]
  rw [if_neg (show ¬ mp + 3 ≤ 2 by omega), if_pos (show 2 < mp + 3 by omega),
    Nat.add_sub_cancel]
  have hdiv1 : (100 * cent + yoc + era * 400) / 400 = era := by omega
  have hdiv2 : (100 * cent + yoc + era * 400) % 400 = 100 * cent + yoc := by omega
  rw [hdiv1, hdiv2]
  have hdiv3 : (100 * cent + yoc) / 4 = 25 * cent + yoc / 4 := by omega
  have hdiv4 : (100 * cent + yoc) / 100 = cent := by omega
  rw [hdiv3, hdiv4]
  omega

theorem rt_core_janfeb (era doe cent doc yoc doy mp : Nat)
    (h1 : doe < 146097)
    (h2 : cent = (4 * doe + 3) / 146097)
    (h3 : doc = doe - 146097 * cent / 4)
    (h4 : yoc = (4 * doc + 3) / 1461)
    (h5 : doy = doc - 1461 * yoc / 4)
    (h6 : mp = (5 * doy + 2) / 153)
    (h8 : 10 ≤ mp) :
    daysFromCivil (100 * cent + yoc + era * 400 + 1) (mp - 9)
      (doy - (153 * mp + 2) / 5 + 1) = era * 146097 + doe := by
  have hcb : cent ≤ 3 := by omega
  have hdocb : doc ≤ 36524 := by omega
  have hyocb : yoc ≤ 99 := by omega
  have hdoyb : doy ≤ 365 := by omega
  have h9 : mp ≤ 11 := by omega
  have hf : (153 * mp + 2) / 5 ≤ doy := by omega
  have hL : 146097 * cent / 4 = 36524 * cent := by omega
  have hK : 1461 * yoc / 4 = 365 * yoc + yoc / 4 := by omega
  rw [hL] at h3
  rw [hK] at h5
  simp only [daysFromCivil]
  rw [if_pos (show mp - 9 ≤ 2 by omega), if_neg (show ¬ 2 < mp - 9 by omega),
    Nat.add_sub_cancel, Nat.sub_add_cancel (show 9 ≤ mp by omega)]
  have hdiv1 : (100 * cent + yoc + era * 400) / 400 = era := by omega
  have hdiv2 : (100 * cent + yoc + era * 400) % 400 = 100 * cent + yoc := by omega
  rw [hdiv1, hdiv2]
  have hdiv3 : (100 * cent + yoc) / 4 = 25 * cent + yoc / 4 := by omega
  have hdiv4 : (100 * cent + yoc) / 100 = cent := by omega
  rw [hdiv3, hdiv4]
  omega

/-- The two calendar conversions are mutually inverse on day counts. -/
theorem daysFromCivil_civilFromDays (z : Nat) :
    daysFromCivil (civilFromDays z).1 (civilFromDays z).2.1
      (civilFromDays z).2.2 = z := by
  obtain ⟨y, mm, dd, h⟩ : ∃ y mm dd, civilFromDays z = (y, mm, dd) := ⟨_, _, _, rfl⟩
  rw [h]
  simp only [civilFromDays, Prod.mk.injEq] at h
  set era := z / 146097 with hera
  set doe := z % 146097 with hdoeq
  have hdoe : doe < 146097 := Nat.mod_lt _ (by norm_num)
  set cent := (4 * doe + 3) / 146097 with hcent
  set doc := doe - 146097 * cent / 4 with hdoc
  set yoc := (4 * doc + 3) / 1461 with hyoc
  set doy := doc - 1461 * yoc / 4 with hdoy
  set mp := (5 * doy + 2) / 153 with hmp
  have hz : z = era * 146097 + doe := by omega
  have hcb : cent ≤ 3 := by omega
  have hdocb : doc ≤ 36524 := by omega
  have hyocb : yoc ≤ 99 := by omega
  have hdoyb : doy ≤ 365 := by omega
  have hmpb : mp ≤ 11 := by omega
  obtain ⟨hy1, hm1, hd1⟩ := h
  rcases Nat.lt_or_ge mp 10 with h10 | h10
  · rw [if_pos h10] at hy1 hm1
    rw [if_neg (show ¬ mp + 3 ≤ 2 by omega)] at hy1
    subst hy1 hm1 hd1
    rw [hz]
    exact rt_core_march era doe cent doc yoc doy mp hdoe hcent hdoc hyoc hdoy hmp h10
  · rw [if_neg (show ¬ mp < 10 by omega)] at hy1 hm1
    rw [if_pos (show mp - 9 ≤ 2 by omega)] at hy1
    subst hy1 hm1 hd1
    rw [hz]
    exact rt_core_janfeb era doe cent doc yoc doy mp hdoe hcent hdoc hyoc hdoy hmp h10

/-- Round trip at second granularity: converting a second count to a
datetime and back is the identity. -/
theorem toSecs_fromSecs (s : Nat) : toSecs (fromSecs s) = s := by
  simp only [toSecs, fromSecs]
  rw [daysFromCivil_civilFromDays]
  omega

/-- The civil conversion always produces a month in 1..12 and a day in
1..31. -/
theorem civilFromDays_bounds (z : Nat) :
    1 ≤ (civilFromDays z).2.1 ∧ (civilFromDays z).2.1 ≤ 12 ∧
    1 ≤ (civilFromDays z).2.2 ∧ (civilFromDays z).2.2 ≤ 31 := by
  obtain ⟨y, mm, dd, h⟩ : ∃ y mm dd, civilFromDays z = (y, mm, dd) := ⟨_, _, _, rfl⟩
  rw [h]
  dsimp only
  simp only [civilFromDays, Prod.mk.injEq] at h
  set era := z / 146097 with hera
  set doe := z % 146097 with hdoeq
  have hdoe : doe < 146097 := Nat.mod_lt _ (by norm_num)
  set cent := (4 * doe + 3) / 146097 with hcent
  set doc := doe - 146097 * cent / 4 with hdoc
  set yoc := (4 * doc + 3) / 1461 with hyoc
  set doy := doc - 1461 * yoc / 4 with hdoy
  set mp := (5 * doy + 2) / 153 with hmp
  have hcb : cent ≤ 3 := by omega
  have hdocb : doc ≤ 36524 := by omega
  have hyocb : yoc ≤ 99 := by omega
  have hdoyb : doy ≤ 365 := by omega
  have hmpb : mp ≤ 11 := by omega
  have hds : (153 * mp + 2) / 5 ≤ doy := by omega
  have hds2 : doy - (153 * mp + 2) / 5 ≤ 30 := by omega
  obtain ⟨hy1, hm1, hd1⟩ := h
  rcases Nat.lt_or_ge mp 10 with h10 | h10
  · rw [if_pos h10] at hm1
    subst hm1 hd1
    omega
  · rw [if_neg (show ¬ mp < 10 by omega)] at hm1
    subst hm1 hd1
    omega

/-- Any date no later than 2009-12-31 (with in-range month and day fields)
has a day number strictly below that of 2010-05-01 (= 734198). -/
theorem daysFromCivil_lt_2010 (y m d : Nat) (hm1 : 1 ≤ m) (hm2 : m ≤ 12)
    (hd1 : 1 ≤ d) (hd2 : d ≤ 31) (hy : y ≤ 2009) :
    daysFromCivil y m d < 734198 := by
  simp only [daysFromCivil]
  rcases Nat.lt_or_ge 2 m with h2 | h2
  · rw [if_neg (show ¬ m ≤ 2 by omega), if_pos h2]
    omega
  · rw [if_pos (show m ≤ 2 by omega), if_neg (show ¬ 2 < m by omega)]
    omega

/-- Any date no earlier than 2025-01-01 (with month and day at least 1) has
a day number strictly above that of 2024-05-01 (= 739312). -/
theorem daysFromCivil_ge_2025 (y m d : Nat) (hm1 : 1 ≤ m) (hm2 : m ≤ 12)
    (hd1 : 1 ≤ d) (hy : 2025 ≤ y) :
    739312 ≤ daysFromCivil y m d := by
  simp only [daysFromCivil]
  rcases Nat.lt_or_ge 2 m with h2 | h2
  · rw [if_neg (show ¬ m ≤ 2 by omega), if_pos h2]
    omega
  · rw [if_pos (show m ≤ 2 by omega), if_neg (show ¬ 2 < m by omega)]
    omega

/-- `strftime` zero-padded two-digit field (`%m`, `%d`, `%H`, `%M`, `%S`):
pad with `0` to a minimum width of 2. -/
def pad2 (n : Nat) : String := if n < 10 then "0" ++ Nat.repr n else Nat.repr n

/-- `strftime` year field (`%Y`) zero-padded to a minimum width of 4 (all
years handled by the script are four-digit, where every platform agrees). -/
def pad4 (n : Nat) : String :=
  if n < 10 then "000" ++ Nat.repr n
  else if n < 100 then "00" ++ Nat.repr n
  else if n < 1000 then "0" ++ Nat.repr n
  else Nat.repr n

/-- The shared date fragment of both file paths: the rendering of
`strftime('/%Y/%m/%d/hmi.M_720s.%Y%m%d_%H%M%S')`. -/
def fmtDatePath (dt : DateTime) : String :=
  "/" ++ pad4 dt.year ++ "/" ++ pad2 dt.month ++ "/" ++ pad2 dt.day ++
  "/hmi.M_720s." ++ pad4 dt.year ++ pad2 dt.month ++ pad2 dt.day ++ "_" ++
  pad2 dt.hour ++ pad2 dt.minute ++ pad2 dt.second

/-- Python `str(datetime)`: `YYYY-MM-DD HH:MM:SS`, as interpolated into the
script's log messages. -/
def dtStr (dt : DateTime) : String :=
  pad4 dt.year ++ "-" ++ pad2 dt.month ++ "-" ++ pad2 dt.day ++ " " ++
  pad2 dt.hour ++ ":" ++ pad2 dt.minute ++ ":" ++ pad2 dt.second

/-- POSIX `os.path.join` for two components: if the second starts with the
separator the first is discarded entirely; otherwise they are joined with a
separator unless the first is empty or already ends with one. -/
def ospath_join (a b : String) : String :=
  if b.data.head? = some '/' then b
  else if a.data = [] ∨ a.data.getLast? = some '/' then a ++ b
  else a ++ "/" ++ b

/-- The `relevant_path` local of `sel_mid_line`: date fragment plus the
`_TAI.pt` suffix. Note it begins with `/`. -/
def relevant_path (dt : DateTime) : String := fmtDatePath dt ++ "_TAI.pt"

/-- The `data_path` local of `sel_mid_line`:
`os.path.join(input_dir, relevant_path)`. -/
def data_path (input_dir : String) (dt : DateTime) : String :=
  ospath_join input_dir (relevant_path dt)

/-- The `output_path` local of `sel_mid_line`:
`os.path.join(output_dir, strftime(...) + "_midline.pt")`. -/
def output_path (output_dir : String) (dt : DateTime) : String :=
  ospath_join output_dir (fmtDatePath dt ++ "_midline.pt")

theorem fmtDatePath_head (dt : DateTime) (r : String) :
    ((fmtDatePath dt ++ r).data).head? = some '/' := by
  simp only [fmtDatePath, String.data_append, List.append_assoc]
  rfl

/-- Because the date fragment begins with `/`, `os.path.join` discards the
directory root entirely. -/
theorem ospath_join_absolute (a : String) (dt : DateTime) (r : String) :
    ospath_join a (fmtDatePath dt ++ r) = fmtDatePath dt ++ r := by
  unfold ospath_join
  rw [if_pos (fmtDatePath_head dt r)]

theorem pad2_len_aux : ∀ n, n < 100 → (pad2 n).data.length = 2 := by decide

theorem pad2_inj_aux :
    ∀ a, a < 100 → ∀ b, b < 100 → (pad2 a).data = (pad2 b).data → a = b := by
  decide

theorem pad4_len_aux : ∀ i, i < 15 → ((pad4 (2010 + i)).data.length = 4) := by
  decide

theorem pad4_inj_aux :
    ∀ i, i < 15 → ∀ j, j < 15 →
      (pad4 (2010 + i)).data = (pad4 (2010 + j)).data → i = j := by
  decide

theorem pad4_len (y : Nat) (h1 : 2010 ≤ y) (h2 : y ≤ 2024) :
    (pad4 y).data.length = 4 := by
  have := pad4_len_aux (y - 2010) (by omega)
  rwa [Nat.add_sub_cancel' h1] at this

theorem pad4_inj (y1 y2 : Nat) (h1 : 2010 ≤ y1) (h2 : y1 ≤ 2024)
    (h3 : 2010 ≤ y2) (h4 : y2 ≤ 2024)
    (h : (pad4 y1).data = (pad4 y2).data) : y1 = y2 := by
  have := pad4_inj_aux (y1 - 2010) (by omega) (y2 - 2010) (by omega)
  rw [Nat.add_sub_cancel' h1, Nat.add_sub_cancel' h3] at this
  have := this h
  omega

/-- The rendered date fragment determines the datetime fields, for
field values in the ranges `datetime` guarantees (and years in the
script's window). -/
theorem fmtDatePath_inj (dt1 dt2 : DateTime)
    (hy1 : 2010 ≤ dt1.year) (hy2 : dt1.year ≤ 2024)
    (hmo1 : dt1.month < 100) (hda1 : dt1.day < 100)
    (hho1 : dt1.hour < 100) (hmi1 : dt1.minute < 100) (hse1 : dt1.second < 100)
    (hy3 : 2010 ≤ dt2.year) (hy4 : dt2.year ≤ 2024)
    (hmo2 : dt2.month < 100) (hda2 : dt2.day < 100)
    (hho2 : dt2.hour < 100) (hmi2 : dt2.minute < 100) (hse2 : dt2.second < 100)
    (h : fmtDatePath dt1 = fmtDatePath dt2) : dt1 = dt2 := by
  obtain ⟨y1, mo1, da1, ho1, mi1, se1⟩ := dt1
  obtain ⟨y2, mo2, da2, ho2, mi2, se2⟩ := dt2
  dsimp only at hy1 hy2 hmo1 hda1 hho1 hmi1 hse1 hy3 hy4 hmo2 hda2 hho2 hmi2 hse2
  have hd := congrArg String.data h
  simp only [fmtDatePath, String.data_append, List.append_assoc] at hd
  obtain ⟨-, hd⟩ := List.append_inj hd rfl
  obtain ⟨hy, hd⟩ := List.append_inj hd
    (by rw [pad4_len _ hy1 hy2, pad4_len _ hy3 hy4])
  obtain ⟨-, hd⟩ := List.append_inj hd rfl
  obtain ⟨hmo, hd⟩ := List.append_inj hd
    (by rw [pad2_len_aux _ hmo1, pad2_len_aux _ hmo2])
  obtain ⟨-, hd⟩ := List.append_inj hd rfl
  obtain ⟨hda, hd⟩ := List.append_inj hd
    (by rw [pad2_len_aux _ hda1, pad2_len_aux _ hda2])
  obtain ⟨-, hd⟩ := List.append_inj hd rfl
  obtain ⟨-, hd⟩ := List.append_inj hd
    (by rw [pad4_len _ hy1 hy2, pad4_len _ hy3 hy4])
  obtain ⟨-, hd⟩ := List.append_inj hd
    (by rw [pad2_len_aux _ hmo1, pad2_len_aux _ hmo2])
  obtain ⟨-, hd⟩ := List.append_inj hd
    (by rw [pad2_len_aux _ hda1, pad2_len_aux _ hda2])
  obtain ⟨-, hd⟩ := List.append_inj hd rfl
  obtain ⟨hho, hd⟩ := List.append_inj hd
    (by rw [pad2_len_aux _ hho1, pad2_len_aux _ hho2])
  obtain ⟨hmi, hse⟩ := List.append_inj hd
    (by rw [pad2_len_aux _ hmi1, pad2_len_aux _ hmi2])
  simp only [DateTime.mk.injEq]
  exact ⟨pad4_inj _ _ hy1 hy2 hy3 hy4 hy,
    pad2_inj_aux _ hmo1 _ hmo2 hmo,
    pad2_inj_aux _ hda1 _ hda2 hda,
    pad2_inj_aux _ hho1 _ hho2 hho,
    pad2_inj_aux _ hmi1 _ hmi2 hmi,
    pad2_inj_aux _ hse1 _ hse2 hse⟩

/-- The datetime fields produced by `fromSecs` are within the ranges the
`datetime` type guarantees. -/
theorem fromSecs_bounds (s : Nat) :
    1 ≤ (fromSecs s).month ∧ (fromSecs s).month ≤ 12 ∧
    1 ≤ (fromSecs s).day ∧ (fromSecs s).day ≤ 31 ∧
    (fromSecs s).hour ≤ 23 ∧ (fromSecs s).minute ≤ 59 ∧
    (fromSecs s).second ≤ 59 := by
  have h := civilFromDays_bounds (s / 86400)
  simp only [fromSecs]
  exact ⟨h.1, h.2.1, h.2.2.1, h.2.2.2, by omega, by omega, by omega⟩

theorem fromSecs_days (s : Nat) :
    daysFromCivil (fromSecs s).year (fromSecs s).month (fromSecs s).day
      = s / 86400 := by
  simp only [fromSecs]
  exact daysFromCivil_civilFromDays (s / 86400)

/-- Second counts inside the script's window land on years 2010..2024. -/
theorem fromSecs_year_window (s : Nat) (h1 : 63434707200 ≤ s)
    (h2 : s < 63876556800) :
    2010 ≤ (fromSecs s).year ∧ (fromSecs s).year ≤ 2024 := by
  have hb := fromSecs_bounds s
  have hday := fromSecs_days s
  constructor
  · by_contra hlt
    push_neg at hlt
    have := daysFromCivil_lt_2010 (fromSecs s).year (fromSecs s).month
      (fromSecs s).day hb.1 hb.2.1 hb.2.2.1 hb.2.2.2.1 (by omega)
    rw [hday] at this
    omega
  · by_contra hlt
    push_neg at hlt
    have := daysFromCivil_ge_2025 (fromSecs s).year (fromSecs s).month
      (fromSecs s).day hb.1 hb.2.1 hb.2.2.1 (by omega)
    rw [hday] at this
    omega

/-- The script's hard-coded `start_date = datetime(2010, 5, 1, 0, 0, 0)`. -/
def start_date : DateTime := ⟨2010, 5, 1, 0, 0, 0⟩

/-- The script's hard-coded `end_date = datetime(2024, 5, 1, 0, 0, 0)`. -/
def end_date : DateTime := ⟨2024, 5, 1, 0, 0, 0⟩

/-- The date-range enumeration of `main`:
`[start + i * delta for i in range(int((end - start) / delta))]`, with the
step measured in seconds. The timedelta division is exact at these
magnitudes, so `int(...)` is the floor of the exact quotient. -/
def enumerate (s e : DateTime) (stepSecs : Nat) : List DateTime :=
  (List.range ((toSecs e - toSecs s) / stepSecs)).map
    (fun i => fromSecs (toSecs s + i * stepSecs))

/-- The `data_list` of `main`: hourly timestamps over the fixed range. -/
def data_list : List DateTime := enumerate start_date end_date 3600

theorem enumerate_length (s e : DateTime) (st : Nat) :
    (enumerate s e st).length = (toSecs e - toSecs s) / st := by
  simp [enumerate]

theorem enumerate_get (s e : DateTime) (st i : Nat)
    (h : i < (enumerate s e st).length) :
    (enumerate s e st).get ⟨i, h⟩ = fromSecs (toSecs s + i * st) := by
  simp [enumerate]

/-- Every enumerated element's second count is in the closed-open window. -/
theorem enumerate_window (s e : DateTime) (st i : Nat)
    (h : i < (enumerate s e st).length) :
    toSecs s ≤ toSecs ((enumerate s e st).get ⟨i, h⟩) ∧
    toSecs ((enumerate s e st).get ⟨i, h⟩) < toSecs e := by
  rw [enumerate_get, toSecs_fromSecs]
  rw [enumerate_length] at h
  refine ⟨Nat.le_add_right _ _, ?_⟩
  rcases Nat.eq_zero_or_pos st with h0 | h0
  · rw [h0, Nat.div_zero] at h
    exact absurd h (by omega)
  · have h1 : (i + 1) * st ≤ (toSecs e - toSecs s) / st * st :=
      Nat.mul_le_mul_right st h
    have h2 : (toSecs e - toSecs s) / st * st ≤ toSecs e - toSecs s :=
      Nat.div_mul_le_self _ _
    have h3 : i * st + st ≤ toSecs e - toSecs s := by
      rw [Nat.succ_mul] at h1
      omega
    omega

/-- A 2-D tensor of shape `(nrows, ncols)`: the snapshot grid artifact. -/
structure Tensor2 (α : Type) where
  nrows : Nat
  ncols : Nat
  entry : Nat → Nat → α

/-- A 1-D tensor: the persisted mid-line slice. -/
structure Tensor1 (α : Type) where
  len : Nat
  entry : Nat → α

/-- What `torch.load` can yield for a file on disk: a 2-D grid, a 1-D line
(e.g. a previously saved slice), or a file whose load raises some
exception other than not-found (`corrupt`, carrying the exception text). -/
inductive Artifact (α : Type) where
  | grid (t : Tensor2 α)
  | line (v : Tensor1 α)
  | corrupt (msg : String)

/-- The filesystem: a map from paths to artifacts (`none` = no file, so
`torch.load` raises `FileNotFoundError`), plus the list of arguments of the
`os.makedirs` calls made so far (most recent first). -/
structure FS (α : Type) where
  files : String → Option (Artifact α)
  dirs : List String

/-- `torch.save(a, p)`: unconditional overwrite at path `p`. -/
def FS.write {α : Type} (fs : FS α) (p : String) (a : Artifact α) : FS α :=
  { files := fun q => if q = p then some a else fs.files q, dirs := fs.dirs }

/-- `os.makedirs(d, exist_ok=True)`: records the ensured directory; never
fails when the directory exists. -/
def FS.mkdirs {α : Type} (fs : FS α) (d : String) : FS α :=
  { files := fs.files, dirs := d :: fs.dirs }

/-- `os.path.dirname`: everything before the final `/` (for the
slash-separated absolute paths used here). -/
def dirname (p : String) : String :=
  ⟨(((p.data.reverse.dropWhile (fun c => c ≠ '/')).drop 1).reverse)⟩

/-- Result of one `sel_mid_line` call: the filesystem afterwards, the
Python return value (`Optional[str]`), and the printed log line. -/
structure RunResult (α : Type) where
  fs : FS α
  ret : Option String
  log : String

/-- Log line of the success branch: `print(f"Processed {date_time} successfully.")`. -/
def successLog (dt : DateTime) : String :=
  "Processed " ++ dtStr dt ++ " successfully."

/-- Log line of the `FileNotFoundError` branch. -/
def noDataLog (dt : DateTime) : String :=
  "No data found locally for " ++ dtStr dt ++ ", skipping..."

/-- Log line of the catch-all `except Exception` branch. -/
def errorLog (dt : DateTime) (cause : String) : String :=
  "Error processing " ++ dtStr dt ++ ": " ++ cause

/-- Exception text of `data[:, 512]` on a 2-D tensor whose dim 1 is too
short (torch `IndexError`; exact wording abstracted). -/
def oobMsg (n : Nat) : String :=
  "index 512 is out of bounds for dimension 1 with size " ++ Nat.repr n

/-- `sel_mid_line(input_dir, output_dir, date_time)` as a state transformer
on the filesystem. Mirrors the source line by line: derive the two paths;
`torch.load` (missing file → skip branch, any other load failure → catch-all
branch); slice `data[:, 512]` (needs `512 < ncols`, else `IndexError` into
the catch-all; a 1-D tensor raises "too many indices" likewise);
`os.makedirs(dirname(output_path), exist_ok=True)`; `torch.save`; print and
return the output path. The `try/except` makes the Python function total,
which the embedding reflects by returning a `RunResult` in every case. -/
def sel_mid_line {α : Type} (fs : FS α) (input_dir output_dir : String)
    (date_time : DateTime) : RunResult α :=
  let dp := data_path input_dir date_time
  let op := output_path output_dir date_time
  match fs.files dp with
  | none => ⟨fs, none, noDataLog date_time⟩
  | some (.corrupt msg) => ⟨fs, none, errorLog date_time msg⟩
  | some (.line _) =>
      ⟨fs, none, errorLog date_time "too many indices for tensor of dimension 1"⟩
  | some (.grid t) =>
      if 512 < t.ncols then
        let mid : Tensor1 α := ⟨t.nrows, fun i => t.entry i 512⟩
        ⟨(fs.mkdirs (dirname op)).write op (.line mid), some op,
          successLog date_time⟩
      else ⟨fs, none, errorLog date_time (oobMsg t.ncols)⟩

/-- The worker loop of `main`: every timestamp in the list is submitted and
every future is consumed. Scheduling order across independent tasks is
abstracted to list order; per-timestamp results are collected as
`(timestamp, return value, log line)`. -/
def run_batch {α : Type} (fs : FS α) (input_dir output_dir : String) :
    List DateTime → FS α × List (DateTime × Option String × String)
  | [] => (fs, [])
  | dt :: rest =>
      let r := sel_mid_line fs input_dir output_dir dt
      let rec2 := run_batch r.fs input_dir output_dir rest
      (rec2.1, (dt, r.ret, r.log) :: rec2.2)

/-- Column `512` of a grid, as the spec words it ("the extracted slice
equals exactly column 512 of the input grid"). -/
def col512 {α : Type} (t : Tensor2 α) : Tensor1 α :=
  ⟨t.nrows, fun i => t.entry i 512⟩

theorem sel_eq_missing {α : Type} (fs : FS α) (i o : String) (dt : DateTime)
    (h : fs.files (data_path i dt) = none) :
    sel_mid_line fs i o dt = ⟨fs, none, noDataLog dt⟩ := by
  simp only [sel_mid_line]
  rw [h]

theorem sel_eq_corrupt {α : Type} (fs : FS α) (i o : String) (dt : DateTime)
    (msg : String) (h : fs.files (data_path i dt) = some (.corrupt msg)) :
    sel_mid_line fs i o dt = ⟨fs, none, errorLog dt msg⟩ := by
  simp only [sel_mid_line]
  rw [h]

theorem sel_eq_line {α : Type} (fs : FS α) (i o : String) (dt : DateTime)
    (v : Tensor1 α) (h : fs.files (data_path i dt) = some (.line v)) :
    sel_mid_line fs i o dt =
      ⟨fs, none, errorLog dt "too many indices for tensor of dimension 1"⟩ := by
  simp only [sel_mid_line]
  rw [h]

theorem sel_eq_grid {α : Type} (fs : FS α) (i o : String) (dt : DateTime)
    (t : Tensor2 α) (h : fs.files (data_path i dt) = some (.grid t)) :
    sel_mid_line fs i o dt =
      if 512 < t.ncols then
        ⟨(fs.mkdirs (dirname (output_path o dt))).write (output_path o dt)
            (.line (col512 t)),
          some (output_path o dt), successLog dt⟩
      else ⟨fs, none, errorLog dt (oobMsg t.ncols)⟩ := by
  simp only [sel_mid_line]
  rw [h]
  rfl

theorem sel_mid_line_success {α : Type} (fs : FS α) (i o : String)
    (dt : DateTime) (t : Tensor2 α)
    (hload : fs.files (data_path i dt) = some (.grid t))
    (hcols : 513 ≤ t.ncols) :
    sel_mid_line fs i o dt =
      ⟨(fs.mkdirs (dirname (output_path o dt))).write (output_path o dt)
          (.line (col512 t)),
        some (output_path o dt), successLog dt⟩ := by
  rw [sel_eq_grid fs i o dt t hload, if_pos (by omega)]

theorem sel_mid_line_none_fs {α : Type} (fs : FS α) (i o : String)
    (dt : DateTime) (h : (sel_mid_line fs i o dt).ret = none) :
    (sel_mid_line fs i o dt).fs = fs := by
  rcases hfp : fs.files (data_path i dt) with - | a
  · rw [sel_eq_missing fs i o dt hfp]
  · rcases a with t | v | msg
    · rw [sel_eq_grid fs i o dt t hfp] at h ⊢
      by_cases hc : 512 < t.ncols
      · rw [if_pos hc] at h
        simp at h
      · rw [if_neg hc]
    · rw [sel_eq_line fs i o dt v hfp]
    · rw [sel_eq_corrupt fs i o dt msg hfp]

theorem data_path_ne_output_path (i o : String) (dt : DateTime) :
    data_path i dt ≠ output_path o dt := by
  unfold data_path output_path relevant_path
  rw [ospath_join_absolute, ospath_join_absolute]
  intro h
  have h2 := congrArg String.data h
  simp only [String.data_append] at h2
  have h3 := List.append_cancel_left h2
  exact absurd h3 (by decide)

theorem log_heads (dt : DateTime) (c : String) :
    (successLog dt).data.head? = some 'P' ∧
    (noDataLog dt).data.head? = some 'N' ∧
    (errorLog dt c).data.head? = some 'E' := by
  refine ⟨?_, ?_, ?_⟩ <;>
    simp only [successLog, noDataLog, errorLog, String.data_append,
      List.append_assoc] <;> rfl

theorem logs_distinct (dt : DateTime) (c : String) :
    (successLog dt == noDataLog dt) = false ∧
    (successLog dt == errorLog dt c) = false ∧
    (noDataLog dt == errorLog dt c) = false := by
  obtain ⟨h1, h2, h3⟩ := log_heads dt c
  refine ⟨beq_eq_false_iff_ne.mpr fun h => ?_,
    beq_eq_false_iff_ne.mpr fun h => ?_,
    beq_eq_false_iff_ne.mpr fun h => ?_⟩
  · rw [h] at h1
    rw [h1] at h2
    exact absurd (Option.some.inj h2) (by decide)
  · rw [h] at h1
    rw [h1] at h3
    exact absurd (Option.some.inj h3) (by decide)
  · rw [h] at h2
    rw [h2] at h3
    exact absurd (Option.some.inj h3) (by decide)

/-- The three-way case analysis of one `sel_mid_line` call: success with
the output path, skip, or failure with some cause. -/
theorem sel_mid_line_cases {α : Type} (fs : FS α) (i o : String)
    (dt : DateTime) :
    ((sel_mid_line fs i o dt).ret = some (output_path o dt) ∧
      (sel_mid_line fs i o dt).log = successLog dt) ∨
    ((sel_mid_line fs i o dt).ret = none ∧
      (sel_mid_line fs i o dt).log = noDataLog dt) ∨
    ((sel_mid_line fs i o dt).ret = none ∧
      ∃ c, (sel_mid_line fs i o dt).log = errorLog dt c) := by
  rcases hfp : fs.files (data_path i dt) with - | (t | v | msg)
  · rw [sel_eq_missing fs i o dt hfp]
    exact Or.inr (Or.inl ⟨rfl, rfl⟩)
  · rw [sel_eq_grid fs i o dt t hfp]
    by_cases hc : 512 < t.ncols
    · rw [if_pos hc]
      exact Or.inl ⟨rfl, rfl⟩
    · rw [if_neg hc]
      exact Or.inr (Or.inr ⟨rfl, _, rfl⟩)
  · rw [sel_eq_line fs i o dt v hfp]
    exact Or.inr (Or.inr ⟨rfl, _, rfl⟩)
  · rw [sel_eq_corrupt fs i o dt msg hfp]
    exact Or.inr (Or.inr ⟨rfl, _, rfl⟩)

theorem run_batch_append {α : Type} (fs : FS α) (i o : String)
    (l1 l2 : List DateTime) :
    run_batch fs i o (l1 ++ l2) =
      ((run_batch (run_batch fs i o l1).1 i o l2).1,
        (run_batch fs i o l1).2 ++ (run_batch (run_batch fs i o l1).1 i o l2).2) := by
  induction l1 generalizing fs with
  | nil => simp [run_batch]
  | cons d rest ih =>
      simp only [List.cons_append, run_batch, List.append_eq, ih]

theorem run_batch_fst {α : Type} (fs : FS α) (i o : String)
    (l : List DateTime) :
    (run_batch fs i o l).2.map Prod.fst = l := by
  induction l generalizing fs with
  | nil => rfl
  | cons d rest ih => simp [run_batch, ih]

set_option maxHeartbeats 4000000 in
/-- Claim C1 (code bug in the source): at the claim's own example input the
derived paths do NOT start with the roots. The strftime template begins
with `/`, so `os.path.join` throws the roots away: the input path is
`/2012/03/04/...` rather than `/data/2012/03/04/...`, and likewise for the
output path. -/
theorem c1_roots_discarded :
    data_path "/data" (DateTime.mk 2012 3 4 5 0 0)
        = "/2012/03/04/hmi.M_720s.20120304_050000_TAI.pt" ∧
    output_path "/out" (DateTime.mk 2012 3 4 5 0 0)
        = "/2012/03/04/hmi.M_720s.20120304_050000_midline.pt" ∧
    (data_path "/data" (DateTime.mk 2012 3 4 5 0 0)
        == "/data/2012/03/04/hmi.M_720s.20120304_050000_TAI.pt") = false ∧
    (output_path "/out" (DateTime.mk 2012 3 4 5 0 0)
        == "/out/2012/03/04/hmi.M_720s.20120304_050000_midline.pt") = false := by
  refine ⟨by decide, by decide, by decide, by decide⟩

/-- Claim C5: when the input artifact is absent (`torch.load` raises
`FileNotFoundError`), `sel_mid_line` returns `None`, prints the skip
message, and leaves the filesystem entirely unchanged (no output file, no
directory creation). -/
theorem c5_skip_on_missing {α : Type} (fs : FS α) (input_dir output_dir : String)
    (dt : DateTime) (h : fs.files (data_path input_dir dt) = none) :
    (sel_mid_line fs input_dir output_dir dt).ret = none ∧
    (sel_mid_line fs input_dir output_dir dt).log = noDataLog dt ∧
    (sel_mid_line fs input_dir output_dir dt).fs = fs := by
  rw [sel_eq_missing fs input_dir output_dir dt h]
  exact ⟨rfl, rfl, rfl⟩

theorem c5_witness :
    (sel_mid_line (α := Nat) ⟨fun _ => none, []⟩ "/in" "/out"
        (DateTime.mk 2012 3 4 5 0 0)).ret = none ∧
    (sel_mid_line (α := Nat) ⟨fun _ => none, []⟩ "/in" "/out"
        (DateTime.mk 2012 3 4 5 0 0)).log = noDataLog (DateTime.mk 2012 3 4 5 0 0) ∧
    (sel_mid_line (α := Nat) ⟨fun _ => none, []⟩ "/in" "/out"
        (DateTime.mk 2012 3 4 5 0 0)).fs = ⟨fun _ => none, []⟩ :=
  c5_skip_on_missing (α := Nat) ⟨fun _ => none, []⟩ "/in" "/out"
    (DateTime.mk 2012 3 4 5 0 0) rfl

/-- Claim C6: a successfully loaded grid whose second dimension does not
include index 512 makes `data[:, 512]` raise, which the catch-all converts
into a failure log line and a `None` return; the filesystem is untouched
and nothing escapes. -/
theorem c6_short_grid_failure {α : Type} (fs : FS α) (input_dir output_dir : String)
    (dt : DateTime) (t : Tensor2 α)
    (hload : fs.files (data_path input_dir dt) = some (.grid t))
    (hcols : t.ncols ≤ 512) :
    (sel_mid_line fs input_dir output_dir dt).ret = none ∧
    (sel_mid_line fs input_dir output_dir dt).log = errorLog dt (oobMsg t.ncols) ∧
    (sel_mid_line fs input_dir output_dir dt).fs = fs := by
  rw [sel_eq_grid fs input_dir output_dir dt t hload, if_neg (by omega)]
  exact ⟨rfl, rfl, rfl⟩

theorem c6_witness :
    (sel_mid_line (α := Nat)
        ⟨fun _ => some (.grid ⟨2, 512, fun a b => a + b⟩), []⟩ "/in" "/out"
        (DateTime.mk 2012 3 4 5 0 0)).ret = none ∧
    (sel_mid_line (α := Nat)
        ⟨fun _ => some (.grid ⟨2, 512, fun a b => a + b⟩), []⟩ "/in" "/out"
        (DateTime.mk 2012 3 4 5 0 0)).log
      = errorLog (DateTime.mk 2012 3 4 5 0 0) (oobMsg 512) ∧
    (sel_mid_line (α := Nat)
        ⟨fun _ => some (.grid ⟨2, 512, fun a b => a + b⟩), []⟩ "/in" "/out"
        (DateTime.mk 2012 3 4 5 0 0)).fs
      = ⟨fun _ => some (.grid ⟨2, 512, fun a b => a + b⟩), []⟩ :=
  c6_short_grid_failure (α := Nat)
    ⟨fun _ => some (.grid ⟨2, 512, fun a b => a + b⟩), []⟩ "/in" "/out"
    (DateTime.mk 2012 3 4 5 0 0) ⟨2, 512, fun a b => a + b⟩ rfl (by decide)

/-- Claim C10: whenever `sel_mid_line` ends without a result (skip or
failure, i.e. before reaching the save phase), the filesystem is completely
unchanged: no file written and no directory created, because `os.makedirs`
and `torch.save` are only reached after a successful load and slice. -/
theorem c10_no_result_no_side_effect {α : Type} (fs : FS α)
    (input_dir output_dir : String) (dt : DateTime)
    (h : (sel_mid_line fs input_dir output_dir dt).ret = none) :
    (sel_mid_line fs input_dir output_dir dt).fs.files = fs.files ∧
    (sel_mid_line fs input_dir output_dir dt).fs.dirs = fs.dirs := by
  rw [sel_mid_line_none_fs fs input_dir output_dir dt h]
  exact ⟨rfl, rfl⟩

theorem c10_witness :
    (sel_mid_line (α := Nat)
        ⟨fun _ => some (.corrupt "invalid load key"), ["/d"]⟩ "/in" "/out"
        (DateTime.mk 2012 3 4 5 0 0)).fs.files
      = (fun _ => some (.corrupt "invalid load key")) ∧
    (sel_mid_line (α := Nat)
        ⟨fun _ => some (.corrupt "invalid load key"), ["/d"]⟩ "/in" "/out"
        (DateTime.mk 2012 3 4 5 0 0)).fs.dirs = ["/d"] :=
  c10_no_result_no_side_effect (α := Nat)
    ⟨fun _ => some (.corrupt "invalid load key"), ["/d"]⟩ "/in" "/out"
    (DateTime.mk 2012 3 4 5 0 0) rfl

/-- Claim C4: for every grid whose second dimension has size at least 513,
the artifact persisted at the output path is exactly column 512 of the
loaded grid, and the call returns the output path. -/
theorem c4_slice_correct {α : Type} (fs : FS α) (input_dir output_dir : String)
    (dt : DateTime) (t : Tensor2 α)
    (hload : fs.files (data_path input_dir dt) = some (.grid t))
    (hcols : 513 ≤ t.ncols) :
    (sel_mid_line fs input_dir output_dir dt).fs.files (output_path output_dir dt)
        = some (.line (col512 t)) ∧
    (sel_mid_line fs input_dir output_dir dt).ret
        = some (output_path output_dir dt) := by
  rw [sel_mid_line_success fs input_dir output_dir dt t hload hcols]
  refine ⟨?_, rfl⟩
  simp only [FS.write, FS.mkdirs]
  simp

theorem c4_witness :
    (sel_mid_line (α := Nat)
        ⟨fun _ => some (.grid ⟨3, 513, fun a b => a * 1000 + b⟩), []⟩ "/in" "/out"
        (DateTime.mk 2012 3 4 5 0 0)).fs.files
        (output_path "/out" (DateTime.mk 2012 3 4 5 0 0))
      = some (.line (col512 ⟨3, 513, fun a b => a * 1000 + b⟩)) ∧
    (sel_mid_line (α := Nat)
        ⟨fun _ => some (.grid ⟨3, 513, fun a b => a * 1000 + b⟩), []⟩ "/in" "/out"
        (DateTime.mk 2012 3 4 5 0 0)).ret
      = some (output_path "/out" (DateTime.mk 2012 3 4 5 0 0)) :=
  c4_slice_correct (α := Nat)
    ⟨fun _ => some (.grid ⟨3, 513, fun a b => a * 1000 + b⟩), []⟩ "/in" "/out"
    (DateTime.mk 2012 3 4 5 0 0) ⟨3, 513, fun a b => a * 1000 + b⟩ rfl (by decide)

/-- Claim C8: with the same input grid in place, running `sel_mid_line`
twice yields a value-identical artifact at the output path both times; the
second run performs no existence check and overwrites unconditionally (the
theorem quantifies over every starting filesystem, in particular ones where
the output file already exists with arbitrary content). -/
theorem c8_rerun_identical {α : Type} (fs : FS α) (input_dir output_dir : String)
    (dt : DateTime) (t : Tensor2 α)
    (hload : fs.files (data_path input_dir dt) = some (.grid t))
    (hcols : 513 ≤ t.ncols) :
    (sel_mid_line fs input_dir output_dir dt).fs.files (output_path output_dir dt)
        = some (.line (col512 t)) ∧
    (sel_mid_line (sel_mid_line fs input_dir output_dir dt).fs
        input_dir output_dir dt).fs.files (output_path output_dir dt)
        = some (.line (col512 t)) ∧
    (sel_mid_line (sel_mid_line fs input_dir output_dir dt).fs
        input_dir output_dir dt).ret
        = (sel_mid_line fs input_dir output_dir dt).ret := by
  have hne := data_path_ne_output_path input_dir output_dir dt
  have h1 := sel_mid_line_success fs input_dir output_dir dt t hload hcols
  have hload2 : ((fs.mkdirs (dirname (output_path output_dir dt))).write
      (output_path output_dir dt) (.line (col512 t))).files
      (data_path input_dir dt) = some (.grid t) := by
    simp only [FS.write, FS.mkdirs]
    rw [if_neg hne]
    exact hload
  have h2 := sel_mid_line_success _ input_dir output_dir dt t hload2 hcols
  rw [h1]
  dsimp only
  rw [h2]
  dsimp only
  refine ⟨?_, ?_, rfl⟩
  · simp only [FS.write, FS.mkdirs]
    simp
  · simp only [FS.write, FS.mkdirs]
    simp

theorem c8_witness :
    (sel_mid_line (α := Nat)
        ⟨fun _ => some (.grid ⟨3, 513, fun a b => a * 1000 + b⟩), []⟩ "/in" "/out"
        (DateTime.mk 2012 3 4 5 0 0)).fs.files
        (output_path "/out" (DateTime.mk 2012 3 4 5 0 0))
      = some (.line (col512 ⟨3, 513, fun a b => a * 1000 + b⟩)) ∧
    (sel_mid_line (α := Nat)
        (sel_mid_line (α := Nat)
          ⟨fun _ => some (.grid ⟨3, 513, fun a b => a * 1000 + b⟩), []⟩ "/in" "/out"
          (DateTime.mk 2012 3 4 5 0 0)).fs "/in" "/out"
        (DateTime.mk 2012 3 4 5 0 0)).fs.files
        (output_path "/out" (DateTime.mk 2012 3 4 5 0 0))
      = some (.line (col512 ⟨3, 513, fun a b => a * 1000 + b⟩)) ∧
    (sel_mid_line (α := Nat)
        (sel_mid_line (α := Nat)
          ⟨fun _ => some (.grid ⟨3, 513, fun a b => a * 1000 + b⟩), []⟩ "/in" "/out"
          (DateTime.mk 2012 3 4 5 0 0)).fs "/in" "/out"
        (DateTime.mk 2012 3 4 5 0 0)).ret
      = (sel_mid_line (α := Nat)
          ⟨fun _ => some (.grid ⟨3, 513, fun a b => a * 1000 + b⟩), []⟩ "/in" "/out"
          (DateTime.mk 2012 3 4 5 0 0)).ret :=
  c8_rerun_identical (α := Nat)
    ⟨fun _ => some (.grid ⟨3, 513, fun a b => a * 1000 + b⟩), []⟩ "/in" "/out"
    (DateTime.mk 2012 3 4 5 0 0) ⟨3, 513, fun a b => a * 1000 + b⟩ rfl (by decide)

/-- Claim C2 (counterexample to the claim as stated): a missing input and a
corrupt input — a skip and a failure — both make `sel_mid_line` return
`None`, so the per-timestamp result value handed to the aggregation loop of
`main` does NOT tell skip apart from failure; only the printed log lines
differ (stated with boolean string equality). -/
theorem c2_counterexample :
    (sel_mid_line (α := Nat) ⟨fun _ => none, []⟩ "/in" "/out"
        (DateTime.mk 2012 3 4 5 0 0)).ret
      = (sel_mid_line (α := Nat)
          ⟨fun _ => some (.corrupt "invalid load key"), []⟩ "/in" "/out"
          (DateTime.mk 2012 3 4 5 0 0)).ret ∧
    ((sel_mid_line (α := Nat) ⟨fun _ => none, []⟩ "/in" "/out"
        (DateTime.mk 2012 3 4 5 0 0)).log
      == (sel_mid_line (α := Nat)
          ⟨fun _ => some (.corrupt "invalid load key"), []⟩ "/in" "/out"
          (DateTime.mk 2012 3 4 5 0 0)).log) = false := by
  exact ⟨rfl, by decide⟩

/-- Claim C2 (amended): every entry collected by the batch loop carries
exactly one of the three outcomes — success with the output path, skip, or
failure with a cause — and the three log lines are pairwise distinct
(boolean string equality is `false`), so the outcomes are distinguishable
in the log; the returned value alone distinguishes only success. -/
theorem c2_outcomes_distinguishable {α : Type} (fs : FS α)
    (input_dir output_dir : String) (dts : List DateTime)
    (e : DateTime × Option String × String)
    (he : e ∈ (run_batch fs input_dir output_dir dts).2) :
    ((e.2.1 = some (output_path output_dir e.1) ∧ e.2.2 = successLog e.1) ∨
      (e.2.1 = none ∧ e.2.2 = noDataLog e.1) ∨
      (e.2.1 = none ∧ ∃ c, e.2.2 = errorLog e.1 c)) ∧
    (successLog e.1 == noDataLog e.1) = false ∧
    (∀ c, (successLog e.1 == errorLog e.1 c) = false) ∧
    (∀ c, (noDataLog e.1 == errorLog e.1 c) = false) := by
  refine ⟨?_, (logs_distinct e.1 "").1, fun c => (logs_distinct e.1 c).2.1,
    fun c => (logs_distinct e.1 c).2.2⟩
  induction dts generalizing fs with
  | nil => simp [run_batch] at he
  | cons d rest ih =>
      simp only [run_batch, List.mem_cons] at he
      rcases he with he | he
      · subst he
        exact sel_mid_line_cases fs input_dir output_dir d
      · exact ih _ he

theorem c2_witness :
    ((((DateTime.mk 2012 3 4 5 0 0), (none : Option String),
        noDataLog (DateTime.mk 2012 3 4 5 0 0)).2.1
          = some (output_path "/out" (DateTime.mk 2012 3 4 5 0 0)) ∧
        ((DateTime.mk 2012 3 4 5 0 0), (none : Option String),
          noDataLog (DateTime.mk 2012 3 4 5 0 0)).2.2
          = successLog (DateTime.mk 2012 3 4 5 0 0)) ∨
      (((DateTime.mk 2012 3 4 5 0 0), (none : Option String),
          noDataLog (DateTime.mk 2012 3 4 5 0 0)).2.1 = none ∧
        ((DateTime.mk 2012 3 4 5 0 0), (none : Option String),
          noDataLog (DateTime.mk 2012 3 4 5 0 0)).2.2
          = noDataLog (DateTime.mk 2012 3 4 5 0 0)) ∨
      (((DateTime.mk 2012 3 4 5 0 0), (none : Option String),
          noDataLog (DateTime.mk 2012 3 4 5 0 0)).2.1 = none ∧
        ∃ c, ((DateTime.mk 2012 3 4 5 0 0), (none : Option String),
          noDataLog (DateTime.mk 2012 3 4 5 0 0)).2.2
          = errorLog (DateTime.mk 2012 3 4 5 0 0) c)) ∧
    (successLog (DateTime.mk 2012 3 4 5 0 0)
      == noDataLog (DateTime.mk 2012 3 4 5 0 0)) = false ∧
    (∀ c, (successLog (DateTime.mk 2012 3 4 5 0 0)
      == errorLog (DateTime.mk 2012 3 4 5 0 0) c) = false) ∧
    (∀ c, (noDataLog (DateTime.mk 2012 3 4 5 0 0)
      == errorLog (DateTime.mk 2012 3 4 5 0 0) c) = false) :=
  c2_outcomes_distinguishable (α := Nat) ⟨fun _ => none, []⟩ "/in" "/out"
    [DateTime.mk 2012 3 4 5 0 0]
    ((DateTime.mk 2012 3 4 5 0 0), none, noDataLog (DateTime.mk 2012 3 4 5 0 0))
    (List.mem_singleton.mpr rfl)

/-- Claim C3: the enumeration is exactly
`start, start + step, start + 2 step, ...`, strictly below `end`, with
length `floor((end - start) / step)`; the 3-hour example yields exactly the
three timestamps 00:00, 01:00, 02:00; and every element of the program's
fixed hourly range lies in `[start, end)` (compared on the second
timeline). -/
theorem c3_enumerate_spec :
    (∀ s e st, (enumerate s e st).length = (toSecs e - toSecs s) / st) ∧
    (∀ s e st i, ∀ h : i < (enumerate s e st).length,
      (enumerate s e st).get ⟨i, h⟩ = fromSecs (toSecs s + i * st) ∧
      toSecs s ≤ toSecs ((enumerate s e st).get ⟨i, h⟩) ∧
      toSecs ((enumerate s e st).get ⟨i, h⟩) < toSecs e) ∧
    enumerate (DateTime.mk 2010 5 1 0 0 0) (DateTime.mk 2010 5 1 3 0 0) 3600 =
      [DateTime.mk 2010 5 1 0 0 0, DateTime.mk 2010 5 1 1 0 0,
        DateTime.mk 2010 5 1 2 0 0] ∧
    data_list = enumerate start_date end_date 3600 ∧
    (∀ i, ∀ h : i < data_list.length,
      toSecs start_date ≤ toSecs (data_list.get ⟨i, h⟩) ∧
      toSecs (data_list.get ⟨i, h⟩) < toSecs end_date) := by
  refine ⟨enumerate_length, ?_, by decide, rfl, ?_⟩
  · intro s e st i h
    exact ⟨enumerate_get s e st i h, (enumerate_window s e st i h).1,
      (enumerate_window s e st i h).2⟩
  · intro i h
    exact enumerate_window start_date end_date 3600 i h

theorem data_list_len : data_list.length = 122736 := by
  show (enumerate start_date end_date 3600).length = 122736
  rw [enumerate_length]
  decide

theorem data_list_pos : 0 < data_list.length := by
  rw [data_list_len]
  omega

theorem data_list_pos1 : 1 < data_list.length := by
  rw [data_list_len]
  omega

theorem c3_witness :
    toSecs start_date ≤ toSecs (data_list.get ⟨0, data_list_pos⟩) ∧
    toSecs (data_list.get ⟨0, data_list_pos⟩) < toSecs end_date :=
  c3_enumerate_spec.2.2.2.2 0 data_list_pos

/-- Claim C7: no exception escapes the batch (the embedded per-timestamp
procedure is total, mirroring the catch-all `except`); every timestamp in
the submitted list yields exactly one collected outcome; and a timestamp
whose processing fails or skips (returns no result) leaves the filesystem
untouched, so the remaining timestamps produce outcomes identical to a
batch in which the failing timestamp was never submitted. -/
theorem c7_failure_isolation {α : Type} (fs : FS α)
    (input_dir output_dir : String) (l1 l2 : List DateTime) (d : DateTime)
    (hfail : (sel_mid_line (run_batch fs input_dir output_dir l1).1
        input_dir output_dir d).ret = none) :
    (run_batch fs input_dir output_dir (l1 ++ d :: l2)).2.map Prod.fst
        = l1 ++ d :: l2 ∧
    (run_batch fs input_dir output_dir (l1 ++ d :: l2)).2 =
      (run_batch fs input_dir output_dir l1).2 ++
        (d, none, (sel_mid_line (run_batch fs input_dir output_dir l1).1
            input_dir output_dir d).log) ::
        (run_batch (run_batch fs input_dir output_dir l1).1
            input_dir output_dir l2).2 ∧
    (run_batch fs input_dir output_dir (l1 ++ l2)).2 =
      (run_batch fs input_dir output_dir l1).2 ++
        (run_batch (run_batch fs input_dir output_dir l1).1
            input_dir output_dir l2).2 := by
  refine ⟨run_batch_fst _ _ _ _, ?_, ?_⟩
  · rw [run_batch_append fs input_dir output_dir l1 (d :: l2)]
    simp only [run_batch]
    rw [hfail, sel_mid_line_none_fs _ _ _ _ hfail]
  · rw [run_batch_append fs input_dir output_dir l1 l2]

theorem c7_witness :
    (run_batch (α := Nat) ⟨fun _ => none, []⟩ "/in" "/out"
        ([DateTime.mk 2010 5 1 0 0 0] ++ DateTime.mk 2010 5 1 1 0 0 ::
          [DateTime.mk 2010 5 1 2 0 0])).2.map Prod.fst
      = [DateTime.mk 2010 5 1 0 0 0] ++ DateTime.mk 2010 5 1 1 0 0 ::
          [DateTime.mk 2010 5 1 2 0 0] ∧
    (run_batch (α := Nat) ⟨fun _ => none, []⟩ "/in" "/out"
        ([DateTime.mk 2010 5 1 0 0 0] ++ DateTime.mk 2010 5 1 1 0 0 ::
          [DateTime.mk 2010 5 1 2 0 0])).2 =
      (run_batch (α := Nat) ⟨fun _ => none, []⟩ "/in" "/out"
          [DateTime.mk 2010 5 1 0 0 0]).2 ++
        (DateTime.mk 2010 5 1 1 0 0, none,
          (sel_mid_line (run_batch (α := Nat) ⟨fun _ => none, []⟩ "/in" "/out"
              [DateTime.mk 2010 5 1 0 0 0]).1 "/in" "/out"
              (DateTime.mk 2010 5 1 1 0 0)).log) ::
        (run_batch (run_batch (α := Nat) ⟨fun _ => none, []⟩ "/in" "/out"
            [DateTime.mk 2010 5 1 0 0 0]).1 "/in" "/out"
            [DateTime.mk 2010 5 1 2 0 0]).2 ∧
    (run_batch (α := Nat) ⟨fun _ => none, []⟩ "/in" "/out"
        ([DateTime.mk 2010 5 1 0 0 0] ++ [DateTime.mk 2010 5 1 2 0 0])).2 =
      (run_batch (α := Nat) ⟨fun _ => none, []⟩ "/in" "/out"
          [DateTime.mk 2010 5 1 0 0 0]).2 ++
        (run_batch (run_batch (α := Nat) ⟨fun _ => none, []⟩ "/in" "/out"
            [DateTime.mk 2010 5 1 0 0 0]).1 "/in" "/out"
            [DateTime.mk 2010 5 1 2 0 0]).2 :=
  c7_failure_isolation (α := Nat) ⟨fun _ => none, []⟩ "/in" "/out"
    [DateTime.mk 2010 5 1 0 0 0] [DateTime.mk 2010 5 1 2 0 0]
    (DateTime.mk 2010 5 1 1 0 0) rfl

theorem toSecs_start : toSecs start_date = 63434707200 := by decide

theorem toSecs_end : toSecs end_date = 63876556800 := by decide

/-- Claim C9: the output-path derivation is injective on the enumerated
hourly timestamps: two distinct indices of `data_list` always yield
distinct output paths (stated as boolean string equality being `false`),
for any output root — so no output file is written for two different
timestamps. -/
theorem c9_output_paths_injective (r : String) (i j : Nat)
    (hi : i < data_list.length) (hj : j < data_list.length) (hne : i ≠ j) :
    (output_path r (data_list.get ⟨i, hi⟩)
      == output_path r (data_list.get ⟨j, hj⟩)) = false := by
  rw [beq_eq_false_iff_ne]
  intro hpath
  have hgi : data_list.get ⟨i, hi⟩ = fromSecs (toSecs start_date + i * 3600) :=
    enumerate_get start_date end_date 3600 i hi
  have hgj : data_list.get ⟨j, hj⟩ = fromSecs (toSecs start_date + j * 3600) :=
    enumerate_get start_date end_date 3600 j hj
  rw [hgi, hgj] at hpath
  rw [data_list_len] at hi hj
  have hwini : 63434707200 ≤ toSecs start_date + i * 3600 ∧
      toSecs start_date + i * 3600 < 63876556800 := by
    rw [toSecs_start]
    omega
  have hwinj : 63434707200 ≤ toSecs start_date + j * 3600 ∧
      toSecs start_date + j * 3600 < 63876556800 := by
    rw [toSecs_start]
    omega
  have hyi := fromSecs_year_window _ hwini.1 hwini.2
  have hyj := fromSecs_year_window _ hwinj.1 hwinj.2
  have hbi := fromSecs_bounds (toSecs start_date + i * 3600)
  have hbj := fromSecs_bounds (toSecs start_date + j * 3600)
  simp only [output_path] at hpath
  rw [ospath_join_absolute, ospath_join_absolute] at hpath
  have hd := congrArg String.data hpath
  simp only [String.data_append] at hd
  have hfm : fmtDatePath (fromSecs (toSecs start_date + i * 3600))
      = fmtDatePath (fromSecs (toSecs start_date + j * 3600)) :=
    String.ext (List.append_inj' hd rfl).1
  have hdt := fmtDatePath_inj _ _ hyi.1 hyi.2 (by omega) (by omega) (by omega)
    (by omega) (by omega) hyj.1 hyj.2 (by omega) (by omega) (by omega)
    (by omega) (by omega) hfm
  have hsec := congrArg toSecs hdt
  rw [toSecs_fromSecs, toSecs_fromSecs] at hsec
  exact hne (by omega)

theorem c9_witness :
    (output_path "/out" (data_list.get ⟨0, data_list_pos⟩)
      == output_path "/out" (data_list.get ⟨1, data_list_pos1⟩)) = false :=
  c9_output_paths_injective "/out" 0 1 data_list_pos data_list_pos1 (by omega)

end SDO
